import Mathlib

/-!
Shallow embedding of the account service in `src/routes/user.routes.js` and
`src/models/user.model.js`: an Express user router backed by a Mongoose `User`
collection, bcrypt password hashing, and an in-memory OTP store
(`const otpStore = {}`) used by the forgot-password flow.

External collaborators (bcrypt, the `isEmail` validator, nodemailer delivery,
`Math.random`) are modelled as parameters of the operations that call them:
`hash`, `compare`, `isEmail` are function parameters, the random draw is a
`Fin 900000`, and nodemailer delivery success is a `Bool`.
-/

namespace GeeksApp

/-- A persisted `User` document (src/models/user.model.js).  `password` holds
the bcrypt hash, never the plaintext.  Mongoose `timestamps` metadata is not
modelled.  `id` stands for Mongo's `_id`. -/
structure User where
  id : Nat
  username : String
  email : String
  password : String
  phone : String
  profession : String
deriving Repr, DecidableEq

/-- The user collection, in insertion order (`findOne` returns the first
matching document). -/
abbrev DB := List User

/-- The in-memory OTP map `const otpStore = {}`: a JS object keyed by email.
Modelled as an association list with at most one entry per key maintained by
`otpSet` / `otpDel`. -/
abbrev OtpStore := List (String × String)

/-- Own-property lookup in the OTP map: the entry written by
`otpStore[email] = otp` and removed by `delete otpStore[email]`, `none` when no
entry was stored.  A full JS property read additionally walks the prototype
chain — see `otpRead`. -/
def otpGet (s : OtpStore) (email : String) : Option String :=
  (s.find? (fun p => p.1 == email)).map Prod.snd

/-- The property names a plain object literal `{}` inherits from
`Object.prototype`; reading any of them yields a function (or, for
`__proto__`, an object) even when nothing was ever stored under that key. -/
def objectProtoKeys : List String :=
  ["constructor", "hasOwnProperty", "isPrototypeOf", "propertyIsEnumerable",
   "toLocaleString", "toString", "valueOf", "__proto__", "__defineGetter__",
   "__defineSetter__", "__lookupGetter__", "__lookupSetter__"]

/-- The value of a JS property read on the OTP map: a stored code string, an
inherited `Object.prototype` member, or `undefined`. -/
inductive JsVal where
  | undefined
  | str (s : String)
  | protoMember (name : String)
deriving Repr, DecidableEq

/-- `otpStore[email]`: JS property read on the plain object `{}` — the own
entry if one was stored, otherwise the inherited `Object.prototype` member
when `email` names one, otherwise `undefined`. -/
def otpRead (s : OtpStore) (email : String) : JsVal :=
  match otpGet s email with
  | some c => .str c
  | none => if email ∈ objectProtoKeys then .protoMember email else .undefined

/-- JS truthiness of a read value: `undefined` and the empty string are falsy;
inherited functions/objects are truthy. -/
def jsFalsy : JsVal → Bool
  | .undefined => true
  | .str s => s == ""
  | .protoMember _ => false

/-- `otpStore[email] = code`: JS property write, replacing any prior value. -/
def otpSet (s : OtpStore) (email code : String) : OtpStore :=
  (email, code) :: s.filter (fun p => p.1 != email)

/-- `delete otpStore[email]`. -/
def otpDel (s : OtpStore) (email : String) : OtpStore :=
  s.filter (fun p => p.1 != email)

/-- Number of entries stored under a given key. -/
def keyCount (s : OtpStore) (email : String) : Nat :=
  (s.filter (fun p => p.1 == email)).length

/-- JS `String.prototype.trim` (also the Mongoose `trim: true` setter and the
express-validator `.trim()` sanitizer): strip leading and trailing whitespace. -/
def jsTrim (s : String) : String :=
  List.asString (((s.data.dropWhile Char.isWhitespace).reverse.dropWhile Char.isWhitespace).reverse)

/-- The Mongoose `lowercase: true` setter. -/
def jsToLower (s : String) : String :=
  List.asString (s.data.map Char.toLower)

/-! ### Decimal rendering of the OTP

`Math.floor(100000 + Math.random() * 900000).toString()` renders a natural
number in decimal.  `toDigitsAux` is a fuel-driven little-endian digit list,
bridged below to Mathlib's `Nat.digits`. -/

def toDigitsAux : Nat → Nat → List Nat
  | 0, _ => []
  | fuel + 1, n => if n = 0 then [] else n % 10 :: toDigitsAux fuel (n / 10)

/-- Little-endian decimal digits of `n`. -/
def natDigits (n : Nat) : List Nat :=
  toDigitsAux n n

/-- The character for a decimal digit. -/
def digitChar (d : Nat) : Char :=
  Char.ofNat (48 + d)

/-- Numeric value of a decimal digit character. -/
def charVal (c : Char) : Nat :=
  c.toNat - 48

/-- JS `Number.prototype.toString` restricted to naturals: decimal rendering. -/
def natToString (n : Nat) : String :=
  if n = 0 then "0" else List.asString (((natDigits n).map digitChar).reverse)

/-- Numeric value of a string of decimal digit characters. -/
def strNatVal (s : String) : Nat :=
  Nat.ofDigits 10 (s.data.reverse.map charVal)

/-- `Math.floor(100000 + Math.random() * 900000).toString()`: `Math.random()`
ranges over `[0,1)`, so the floor is `100000 + k` for some `k < 900000`. -/
def genOtp (k : Fin 900000) : String :=
  natToString (100000 + k.val)

theorem toDigitsAux_eq_digits : ∀ fuel n, n ≤ fuel → toDigitsAux fuel n = Nat.digits 10 n := by
  intro fuel
  induction fuel with
  | zero =>
    intro n hn
    interval_cases n
    simp [toDigitsAux]
  | succ fuel ih =>
    intro n hn
    by_cases h0 : n = 0
    · subst h0; simp [toDigitsAux]
    · rw [toDigitsAux, if_neg h0, Nat.digits_def' (by norm_num : 1 < 10) (Nat.pos_of_ne_zero h0)]
      have : n / 10 ≤ fuel := by
        have := Nat.div_lt_self (Nat.pos_of_ne_zero h0) (by norm_num : 1 < 10)
        omega
      rw [ih (n / 10) this]

theorem natDigits_eq_digits (n : Nat) : natDigits n = Nat.digits 10 n :=
  toDigitsAux_eq_digits n n (Nat.le_refl n)

theorem natDigits_length_six {n : Nat} (h1 : 100000 ≤ n) (h2 : n ≤ 999999) :
    (natDigits n).length = 6 := by
  rw [natDigits_eq_digits, Nat.digits_len 10 n (by norm_num) (by omega)]
  have : Nat.log 10 n = 5 :=
    Nat.log_eq_of_pow_le_of_lt_pow (by norm_num; omega) (by norm_num; omega)
  omega

theorem charVal_digitChar {d : Nat} (h : d < 10) : charVal (digitChar d) = d := by
  interval_cases d <;> decide

theorem isDigit_digitChar {d : Nat} (h : d < 10) : (digitChar d).isDigit = true := by
  interval_cases d <;> decide

theorem natToString_data {n : Nat} (h : n ≠ 0) :
    (natToString n).data = ((natDigits n).map digitChar).reverse := by
  rw [natToString, if_neg h]
  rfl

theorem natToString_length {n : Nat} (h1 : 100000 ≤ n) (h2 : n ≤ 999999) :
    (natToString n).length = 6 := by
  have hdata := natToString_data (n := n) (by omega)
  have : (natToString n).length = (natToString n).data.length := rfl
  rw [this, hdata, List.length_reverse, List.length_map, natDigits_length_six h1 h2]

theorem strNatVal_natToString {n : Nat} (h : n ≠ 0) : strNatVal (natToString n) = n := by
  rw [strNatVal, natToString_data h, List.reverse_reverse, List.map_map]
  have hmap : (natDigits n).map (charVal ∘ digitChar) = natDigits n := by
    have hcg : ∀ d ∈ natDigits n, (charVal ∘ digitChar) d = id d := by
      intro d hd
      apply charVal_digitChar
      rw [natDigits_eq_digits] at hd
      exact Nat.digits_lt_base (by norm_num) hd
    rw [List.map_congr_left hcg, List.map_id]
  rw [hmap, natDigits_eq_digits, Nat.ofDigits_digits]

/-! ### Store operations (Mongoose model layer) -/

/-- `User.findOne({ email })`: first document whose email matches. -/
def findUserByEmail (db : DB) (email : String) : Option User :=
  db.find? (fun u => u.email == email)

/-- `User.updateOne({ email }, { password: hash })`: replaces the password of
the first document whose email matches; no-op when none matches. -/
def updatePasswordByEmail : DB → String → String → DB
  | [], _, _ => []
  | u :: us, email, h =>
    if u.email == email then { u with password := h } :: us
    else u :: updatePasswordByEmail us email h

/-- Outcome of `User.create` under the schema of src/models/user.model.js. -/
inductive CreateErr where
  | validationError
  | duplicateKey
deriving Repr, DecidableEq

/-- Result of `User.create`: the extended collection, or a schema error. -/
inductive CreateRes where
  | ok (db : DB)
  | error (e : CreateErr)
deriving Repr, DecidableEq

/-- `User.create(fields)` under the schema: string fields are trimmed,
`username` and `email` additionally lowercased; `required`/`minlength`
validators run first; the unique indexes on `username` and `email` (and only
those) reject duplicates; the new document is appended with the next id. -/
def userCreate (db : DB) (nextId : Nat) (username email password phone profession : String) :
    CreateRes :=
  let username := jsToLower (jsTrim username)
  let email := jsToLower (jsTrim email)
  let password := jsTrim password
  let phone := jsTrim phone
  let profession := jsTrim profession
  if username.length < 3 ∨ email.length < 5 ∨ password.length < 5 ∨
      phone.length = 0 ∨ profession.length = 0 then
    .error .validationError
  else if db.any (fun u => u.username == username || u.email == email) then
    .error .duplicateKey
  else
    .ok (db ++ [⟨nextId, username, email, password, phone, profession⟩])

/-! ### Route handlers -/

/-- Response of `POST /login`. -/
inductive LoginRes where
  | badRequest (msg : String)
  | okRes (msg : String)
deriving Repr, DecidableEq

/-- `POST /login` (src/routes/user.routes.js): express-validator trims the
fields and checks `isEmail` and password length ≥ 5 (first failing message is
returned); then looks the user up by email and compares the password with
`bcrypt.compare`; both the missing-user and the wrong-password branches return
status 400 with the same message. -/
def login (isEmail : String → Bool) (compare : String → String → Bool)
    (db : DB) (email password : String) : LoginRes :=
  let email := jsTrim email
  let password := jsTrim password
  if !isEmail email then .badRequest "Enter valid email"
  else if password.length < 5 then .badRequest "Enter valid password"
  else
    match findUserByEmail db email with
    | none => .badRequest "Email or password is incorrect!"
    | some user =>
      if compare password user.password then .okRes "Login successful"
      else .badRequest "Email or password is incorrect!"

/-- Response of `POST /forgot-password`. -/
inductive ForgotRes where
  | notFound
  | sent
  | deliveryFailed
deriving Repr, DecidableEq

/-- `POST /forgot-password`: renders "Email not found" when no user has the
email; otherwise generates the OTP, stores it (`otpStore[email] = otp`) and
only then awaits `transporter.sendMail`; `notifierOk` is the outcome of that
delivery — on rejection the handler aborts but the store write has already
happened. -/
def forgotPassword (db : DB) (s : OtpStore) (email : String) (k : Fin 900000)
    (notifierOk : Bool) : OtpStore × ForgotRes :=
  match findUserByEmail db email with
  | none => (s, .notFound)
  | some _ =>
    let code := genOtp k
    let s' := otpSet s email code
    if notifierOk then (s', .sent) else (s', .deliveryFailed)

/-- Response of `POST /verify-otp`. -/
inductive VerifyRes where
  | ok
  | invalidCode
deriving Repr, DecidableEq

/-- `POST /verify-otp`: `if (otpStore[email] !== otp)` render "Invalid OTP",
else render the reset form; the store is not written.  The strict comparison
of the read value with the submitted string succeeds only on an equal stored
code string (an inherited prototype member or `undefined` is never `===` a
string). -/
def verifyOtp (s : OtpStore) (email code : String) : OtpStore × VerifyRes :=
  match otpRead s email with
  | .str c => if c == code then (s, .ok) else (s, .invalidCode)
  | _ => (s, .invalidCode)

/-- Response of `POST /reset-password`. -/
inductive ResetRes where
  | ok
  | noPendingRequest
deriving Repr, DecidableEq

/-- `POST /reset-password`: `if (!otpStore[email])` render "OTP expired or
invalid"; else hash the new password, `User.updateOne({email},{password})`,
`delete otpStore[email]` (an own-property delete), redirect to login.  The
guard is a truthiness test on the full property read, so an email naming an
`Object.prototype` member passes it even with no stored entry. -/
def resetPassword (hash : String → String) (db : DB) (s : OtpStore)
    (email password : String) : DB × OtpStore × ResetRes :=
  if jsFalsy (otpRead s email) then (db, s, .noPendingRequest)
  else (updatePasswordByEmail db email (hash password), otpDel s email, .ok)

/-- A listed user document as the JSON object sent by `GET /`: field-name /
value pairs of the Mongoose document. -/
def userDoc (u : User) : List (String × String) :=
  [("_id", natToString u.id), ("username", u.username), ("email", u.email),
   ("password", u.password), ("phone", u.phone), ("profession", u.profession)]

/-- `.select('-password')`: drop the password field from a document. -/
def selectMinusPassword (doc : List (String × String)) : List (String × String) :=
  doc.filter (fun p => p.1 != "password")

/-- `GET /`: `User.find().select('-password')` — every document, with the
password projected out. -/
def listUsers (db : DB) : List (List (String × String)) :=
  db.map (fun u => selectMinusPassword (userDoc u))

/-- Response of `PUT /:id`. -/
inductive UpdateRes where
  | updated (doc : List (String × String))
  | notFound
  | serverError
deriving Repr, DecidableEq

/-- The `$set` applied by `findByIdAndUpdate(id, {username, phone, profession})`:
schema setters (trim, lowercase on username) run on update values. -/
def applyProfileUpdate (u : User) (username phone profession : String) : User :=
  { u with username := jsToLower (jsTrim username), phone := jsTrim phone,
           profession := jsTrim profession }

/-- `PUT /:id`: `findByIdAndUpdate(req.params.id, {username, phone, profession},
{new: true}).select('-password')`.  404 when no document has the id; the unique
index on `username` makes the update fail (caught as a 500) when another
document already holds the new username; otherwise the three fields are
replaced and the updated document is returned without its password. -/
def updateUser (db : DB) (id : Nat) (username phone profession : String) :
    DB × UpdateRes :=
  match db.find? (fun u => u.id == id) with
  | none => (db, .notFound)
  | some u =>
    if db.any (fun v => v.id != id && v.username == jsToLower (jsTrim username)) then
      (db, .serverError)
    else
      let u' := applyProfileUpdate u username phone profession
      (db.map (fun v => if v.id == id then applyProfileUpdate v username phone profession else v),
       .updated (selectMinusPassword (userDoc u')))

/-! ### Reachable OTP stores

Entries are only ever written by the forgot-password handler (with a generated
code) and removed by the reset handler; reachable stores therefore hold only
generated codes. -/

inductive ReachableOtp : OtpStore → Prop where
  | empty : ReachableOtp []
  | issue (s : OtpStore) (email : String) (k : Fin 900000) :
      ReachableOtp s → ReachableOtp (otpSet s email (genOtp k))
  | consume (s : OtpStore) (email : String) :
      ReachableOtp s → ReachableOtp (otpDel s email)

/-- A trace of `POST /verify-otp` calls (email, submitted code) threaded
through the OTP store. -/
def foldVerify (s : OtpStore) (calls : List (String × String)) : OtpStore :=
  calls.foldl (fun st ec => (verifyOtp st ec.1 ec.2).1) s

/-! ### Concrete sample data (used by witnesses and counterexamples) -/

/-- A sample stored user; the password field holds a (stand-in) hash. -/
def demoUser : User := ⟨1, "alice", "a@x.com", "oldhash", "1234567890", "dev"⟩

/-- A second sample user. -/
def demoUser2 : User := ⟨2, "bob", "b@y.com", "otherhash", "2223334444", "qa"⟩

def demoDB : DB := [demoUser]

def demoDB2 : DB := [demoUser, demoUser2]

/-- A stand-in for `bcrypt.hash` in concrete runs. -/
def demoHash (p : String) : String := "bcrypt:" ++ p

/-- Sample random draws. -/
def k7 : Fin 900000 := ⟨7, by norm_num⟩

def k8 : Fin 900000 := ⟨8, by norm_num⟩

/-! ### Helper lemmas on the OTP store -/

theorem otpGet_otpSet_self (s : OtpStore) (e c : String) :
    otpGet (otpSet s e c) e = some c := by
  rw [otpGet, otpSet, List.find?_cons_of_pos _ (by simp)]
  rfl

theorem find?_filter_keep (s : OtpStore) (e e' : String) (h : e' ≠ e) :
    (s.filter (fun p => p.1 != e)).find? (fun p => p.1 == e') =
      s.find? (fun p => p.1 == e') := by
  have hee' : ¬(e = e') := fun hh => h hh.symm
  induction s with
  | nil => rfl
  | cons a s ih =>
    by_cases ha : a.1 = e
    · simp [List.filter_cons, ha, List.find?_cons, hee', ih]
    · by_cases hb : a.1 = e'
      · simp [List.filter_cons, ha, List.find?_cons, hb, h]
      · simp [List.filter_cons, ha, List.find?_cons, hb, h, ih]

theorem otpGet_otpSet_ne (s : OtpStore) (e e' c : String) (h : e' ≠ e) :
    otpGet (otpSet s e c) e' = otpGet s e' := by
  rw [otpGet, otpSet, List.find?_cons_of_neg _ (by simp; exact fun hh => h hh.symm),
    find?_filter_keep s e e' h, otpGet]

theorem find?_filter_drop (s : OtpStore) (e : String) :
    (s.filter (fun p => p.1 != e)).find? (fun p => p.1 == e) = none := by
  induction s with
  | nil => rfl
  | cons a s ih =>
    by_cases ha : a.1 = e <;> simp [List.filter_cons, ha, List.find?_cons, ih]

theorem otpGet_otpDel_self (s : OtpStore) (e : String) :
    otpGet (otpDel s e) e = none := by
  rw [otpGet, otpDel, find?_filter_drop]
  rfl

theorem otpGet_otpDel_ne (s : OtpStore) (e e' : String) (h : e' ≠ e) :
    otpGet (otpDel s e) e' = otpGet s e' := by
  rw [otpGet, otpDel, find?_filter_keep s e e' h, otpGet]

theorem filter_key_filter_ne (s : OtpStore) (e : String) :
    (s.filter (fun p => p.1 != e)).filter (fun p => p.1 == e) = [] := by
  induction s with
  | nil => rfl
  | cons a s ih =>
    by_cases ha : a.1 = e <;> simp [List.filter_cons, ha, ih]

theorem keyCount_otpSet_self (s : OtpStore) (e c : String) :
    keyCount (otpSet s e c) e = 1 := by
  rw [keyCount, otpSet, List.filter_cons_of_pos (by simp), filter_key_filter_ne]
  rfl

theorem keyCount_otpSet_ne (s : OtpStore) (e e' c : String) (h : e' ≠ e) :
    keyCount (otpSet s e c) e' = keyCount s e' := by
  have hee' : ¬(e = e') := fun hh => h hh.symm
  rw [keyCount, otpSet, List.filter_cons_of_neg (by simp; exact fun hh => h hh.symm), keyCount]
  congr 1
  induction s with
  | nil => rfl
  | cons a s ih =>
    by_cases ha : a.1 = e
    · simp [List.filter_cons, ha, hee', ih]
    · simp [List.filter_cons, ha, ih]

theorem keyCount_otpDel (s : OtpStore) (e e' : String) :
    keyCount (otpDel s e) e' ≤ keyCount s e' := by
  rw [keyCount, otpDel, keyCount]
  exact List.Sublist.length_le (List.Sublist.filter _ (List.filter_sublist s))

/-- Every reachable store holds at most one entry per email. -/
theorem reachable_keyCount (s : OtpStore) (h : ReachableOtp s) (e : String) :
    keyCount s e ≤ 1 := by
  induction h with
  | empty => simp [keyCount]
  | issue t email k ht ih =>
    by_cases he : e = email
    · subst he; rw [keyCount_otpSet_self]
    · rw [keyCount_otpSet_ne t email e _ he]; exact ih
  | consume t email ht ih => exact le_trans (keyCount_otpDel t email e) ih

/-- Every code held by a reachable store was produced by the OTP generator. -/
theorem reachable_codes (s : OtpStore) (h : ReachableOtp s) :
    ∀ e c, otpGet s e = some c → ∃ k, c = genOtp k := by
  induction h with
  | empty => intro e c hc; simp [otpGet] at hc
  | issue t email k ht ih =>
    intro e c hc
    by_cases he : e = email
    · subst he
      rw [otpGet_otpSet_self] at hc
      exact ⟨k, (Option.some.injEq _ _ ▸ hc).symm⟩
    · rw [otpGet_otpSet_ne t email e _ he] at hc
      exact ih e c hc
  | consume t email ht ih =>
    intro e c hc
    by_cases he : e = email
    · subst he; rw [otpGet_otpDel_self] at hc; cases hc
    · rw [otpGet_otpDel_ne t email e he] at hc
      exact ih e c hc

/-! ### Helper lemmas on the generated code -/

theorem genOtp_length (k : Fin 900000) : (genOtp k).length = 6 := by
  have hk := k.isLt
  exact natToString_length (by omega) (by omega)

theorem genOtp_ne_empty (k : Fin 900000) : genOtp k ≠ "" := by
  intro h
  have := genOtp_length k
  rw [h] at this
  simp at this

theorem strNatVal_genOtp (k : Fin 900000) : strNatVal (genOtp k) = 100000 + k.val :=
  strNatVal_natToString (by omega)

theorem genOtp_injective (k1 k2 : Fin 900000) (h : genOtp k1 = genOtp k2) : k1 = k2 := by
  have h1 := strNatVal_genOtp k1
  have h2 := strNatVal_genOtp k2
  rw [h] at h1
  exact Fin.ext (by omega)

/-- A stored entry shadows the prototype chain. -/
theorem otpRead_some (s : OtpStore) (e c : String) (h : otpGet s e = some c) :
    otpRead s e = .str c := by
  simp [otpRead, h]

/-- With no stored entry and no `Object.prototype` collision, the read is
`undefined`. -/
theorem otpRead_none (s : OtpStore) (e : String) (h : otpGet s e = none)
    (hp : e ∉ objectProtoKeys) : otpRead s e = .undefined := by
  simp [otpRead, h, hp]

/-- The verify comparison succeeds exactly on an equal stored code string. -/
theorem verifyOtp_ok_iff (s : OtpStore) (email code : String) :
    (verifyOtp s email code).2 = VerifyRes.ok ↔ otpRead s email = .str code := by
  rw [verifyOtp]
  cases hr : otpRead s email with
  | undefined => simp
  | protoMember n => simp
  | str x =>
    by_cases h : x = code
    · simp [h]
    · simp [h]

/-- A read yields a code string exactly when an own entry holds it. -/
theorem otpRead_eq_str_iff (s : OtpStore) (e c : String) :
    otpRead s e = .str c ↔ otpGet s e = some c := by
  rw [otpRead]
  cases h : otpGet s e with
  | some x => simp
  | none =>
    by_cases hp : e ∈ objectProtoKeys <;> simp [hp]

/-- `verifyOtp` never writes the store. -/
theorem verifyOtp_fst (s : OtpStore) (e c : String) : (verifyOtp s e c).1 = s := by
  rw [verifyOtp]
  cases otpRead s e with
  | undefined => rfl
  | protoMember n => rfl
  | str x => by_cases h : x == c <;> simp [h]

/-- `updateOne({email},{password})` rewrites the password of the first match
and nothing else. -/
theorem findUserByEmail_updatePassword (db : DB) (e h : String) :
    findUserByEmail (updatePasswordByEmail db e h) e =
      (findUserByEmail db e).map (fun u => { u with password := h }) := by
  induction db with
  | nil => rfl
  | cons u us ih =>
    by_cases hu : u.email = e
    · simp [updatePasswordByEmail, findUserByEmail, List.find?_cons, hu]
    · simp [updatePasswordByEmail, findUserByEmail, List.find?_cons, hu] at ih ⊢
      exact ih

/-! ### Claim theorems -/

/-- C1 counterexample: `!otpStore[email]` on the object literal `{}` sees the
truthy inherited `Object.prototype.toString`, so with an empty registry — no
pending entry for any email — a reset for the email "toString" does not fail
with `NoPendingRequest`: it runs the success path. -/
theorem resetPassword_proto_bypass_cex :
    otpGet ([] : OtpStore) "toString" = none ∧
    (resetPassword demoHash demoDB [] "toString" "newpass1").2.2 = ResetRes.ok := by
  decide

/-- C1 (amended): for every email that does not name an `Object.prototype`
member, `resetPassword` fails with `NoPendingRequest` unless a pending OTP
entry exists; when an entry exists (for any email) it hashes the new password,
rewrites the stored password hash for that email, and deletes the entry, so an
immediately following `resetPassword` call for the same email fails with
`NoPendingRequest`.  (`ReachableOtp` restricts the store to states the
forgot-password flow can actually produce.) -/
theorem resetPassword_requires_pending (hash : String → String) (db : DB) (s : OtpStore)
    (email pw : String) (hreach : ReachableOtp s)
    (hproto : email ∉ objectProtoKeys) :
    (otpGet s email = none →
      resetPassword hash db s email pw = (db, s, ResetRes.noPendingRequest)) ∧
    (∀ c, otpGet s email = some c →
      resetPassword hash db s email pw =
        (updatePasswordByEmail db email (hash pw), otpDel s email, ResetRes.ok) ∧
      findUserByEmail (updatePasswordByEmail db email (hash pw)) email =
        (findUserByEmail db email).map (fun u => { u with password := hash pw }) ∧
      ∀ pw2, (resetPassword hash (updatePasswordByEmail db email (hash pw))
          (otpDel s email) email pw2).2.2 = ResetRes.noPendingRequest) := by
  constructor
  · intro h
    simp [resetPassword, otpRead_none s email h hproto, jsFalsy]
  · intro c hc
    obtain ⟨k, hk⟩ := reachable_codes s hreach email c hc
    have hcne : (c == "") = false := by
      subst hk
      simpa using genOtp_ne_empty k
    refine ⟨?_, findUserByEmail_updatePassword db email (hash pw), ?_⟩
    · simp [resetPassword, otpRead_some s email c hc, jsFalsy, hcne]
    · intro pw2
      simp [resetPassword,
        otpRead_none (otpDel s email) email (otpGet_otpDel_self s email) hproto, jsFalsy]

/-- C1 witness: with a code issued for `a@x.com` (not a prototype name), the
reset succeeds, rewrites the stored hash, and consumes the entry. -/
theorem resetPassword_requires_pending_witness :
    resetPassword demoHash demoDB (otpSet [] "a@x.com" (genOtp k7)) "a@x.com" "newpass1" =
      (updatePasswordByEmail demoDB "a@x.com" (demoHash "newpass1"),
       otpDel (otpSet [] "a@x.com" (genOtp k7)) "a@x.com", ResetRes.ok) :=
  ((resetPassword_requires_pending demoHash demoDB (otpSet [] "a@x.com" (genOtp k7))
      "a@x.com" "newpass1"
      (ReachableOtp.issue [] "a@x.com" k7 ReachableOtp.empty) (by decide)).2 (genOtp k7)
      (otpGet_otpSet_self [] "a@x.com" (genOtp k7))).1

/-- C3: `verifyResetCode` returns ok iff an entry exists for the email and its
stored code equals the submitted code as strings; the handler never writes the
store, so repeating the call gives the same result. -/
theorem verifyOtp_pure_check (s : OtpStore) (email code : String) :
    ((verifyOtp s email code).2 = VerifyRes.ok ↔ otpGet s email = some code) ∧
    (verifyOtp s email code).1 = s ∧
    verifyOtp ((verifyOtp s email code).1) email code = verifyOtp s email code := by
  exact ⟨(verifyOtp_ok_iff s email code).trans (otpRead_eq_str_iff s email code),
    verifyOtp_fst s email code, by rw [verifyOtp_fst]⟩

/-- C6: the forgot-password handler stores the issued code before awaiting the
mail delivery, so a delivery failure leaves the issued code in the registry. -/
theorem forgot_stores_before_notify (db : DB) (s : OtpStore) (email : String)
    (k : Fin 900000) (u : User) (hu : findUserByEmail db email = some u) :
    forgotPassword db s email k false =
      (otpSet s email (genOtp k), ForgotRes.deliveryFailed) ∧
    otpGet (forgotPassword db s email k false).1 email = some (genOtp k) := by
  have h1 : forgotPassword db s email k false =
      (otpSet s email (genOtp k), ForgotRes.deliveryFailed) := by
    simp [forgotPassword, hu]
  exact ⟨h1, by rw [h1]; exact otpGet_otpSet_self s email (genOtp k)⟩

/-- C6 witness: delivery failure for `a@x.com` still leaves the code stored. -/
theorem forgot_stores_before_notify_witness :
    forgotPassword demoDB [] "a@x.com" k7 false =
      (otpSet [] "a@x.com" (genOtp k7), ForgotRes.deliveryFailed) ∧
    otpGet (forgotPassword demoDB [] "a@x.com" k7 false).1 "a@x.com" =
      some (genOtp k7) :=
  forgot_stores_before_notify demoDB [] "a@x.com" k7 demoUser rfl

/-- C7: every code the OTP generator can produce is a 6-character string of
decimal digits whose numeric value lies between 100000 and 999999. -/
theorem otp_code_six_digits (k : Fin 900000) :
    (genOtp k).length = 6 ∧
    (∀ c ∈ (genOtp k).data, c.isDigit = true) ∧
    strNatVal (genOtp k) = 100000 + k.val ∧
    100000 ≤ strNatVal (genOtp k) ∧ strNatVal (genOtp k) ≤ 999999 := by
  have hk := k.isLt
  refine ⟨genOtp_length k, ?_, strNatVal_genOtp k,
    by rw [strNatVal_genOtp]; omega, by rw [strNatVal_genOtp]; omega⟩
  intro c hc
  rw [genOtp, natToString_data (by omega)] at hc
  rw [List.mem_reverse, List.mem_map] at hc
  obtain ⟨d, hd, rfl⟩ := hc
  apply isDigit_digitChar
  rw [natDigits_eq_digits] at hd
  exact Nat.digits_lt_base (by norm_num) hd

/-- C7 witness: the draw 7 yields the code 100007. -/
theorem otp_code_six_digits_witness :
    (genOtp k7).length = 6 ∧
    (∀ c ∈ (genOtp k7).data, c.isDigit = true) ∧
    strNatVal (genOtp k7) = 100000 + k7.val ∧
    100000 ≤ strNatVal (genOtp k7) ∧ strNatVal (genOtp k7) ≤ 999999 :=
  otp_code_six_digits k7

/-- C2 counterexample: the two random draws of two consecutive
forgot-password requests can coincide (`Math.random` may repeat), and then the
first issued code still verifies — it does not yield `InvalidCode` as the
claim states. -/
theorem otp_overwrite_first_code_cex :
    (verifyOtp (forgotPassword demoDB
        (forgotPassword demoDB [] "a@x.com" k7 true).1 "a@x.com" k7 true).1
      "a@x.com" (genOtp k7)).2 = VerifyRes.ok := by
  decide

/-- C2 (amended): the registry keeps at most one code per email — a second
request overwrites the first, only the latest code verifies, and, whenever the
two draws produce different codes, the first code yields `InvalidCode`; every
reachable store holds at most one entry per email. -/
theorem otp_overwrite_latest_only (db : DB) (s : OtpStore) (email : String)
    (u : User) (k1 k2 : Fin 900000) (hu : findUserByEmail db email = some u)
    (hne : k1 ≠ k2) :
    otpGet (forgotPassword db (forgotPassword db s email k1 true).1 email k2 true).1 email =
      some (genOtp k2) ∧
    (verifyOtp (forgotPassword db (forgotPassword db s email k1 true).1 email k2 true).1
      email (genOtp k2)).2 = VerifyRes.ok ∧
    (verifyOtp (forgotPassword db (forgotPassword db s email k1 true).1 email k2 true).1
      email (genOtp k1)).2 = VerifyRes.invalidCode ∧
    keyCount (forgotPassword db (forgotPassword db s email k1 true).1 email k2 true).1 email = 1 ∧
    (∀ t : OtpStore, ReachableOtp t → ∀ e, keyCount t e ≤ 1) := by
  have h1 : (forgotPassword db s email k1 true).1 = otpSet s email (genOtp k1) := by
    simp [forgotPassword, hu]
  have h2 : (forgotPassword db (forgotPassword db s email k1 true).1 email k2 true).1 =
      otpSet (otpSet s email (genOtp k1)) email (genOtp k2) := by
    rw [h1]
    simp [forgotPassword, hu]
  have hget : otpGet (forgotPassword db (forgotPassword db s email k1 true).1 email k2 true).1
      email = some (genOtp k2) := by
    rw [h2]
    exact otpGet_otpSet_self _ email (genOtp k2)
  have hcodes : (genOtp k2 == genOtp k1) = false := by
    simp only [beq_eq_false_iff_ne, ne_eq]
    exact fun h => hne (genOtp_injective k1 k2 h.symm)
  have hread := otpRead_some _ email (genOtp k2) hget
  refine ⟨hget, ?_, ?_, ?_, fun t ht e => reachable_keyCount t ht e⟩
  · simp [verifyOtp, hread]
  · simp [verifyOtp, hread, hcodes]
  · rw [h2]
    exact keyCount_otpSet_self _ email (genOtp k2)

/-- C2 witness: with distinct draws 7 and 8, only the latest code verifies and
the first one is rejected. -/
theorem otp_overwrite_latest_only_witness :
    (verifyOtp (forgotPassword demoDB
        (forgotPassword demoDB [] "a@x.com" k7 true).1 "a@x.com" k8 true).1
      "a@x.com" (genOtp k7)).2 = VerifyRes.invalidCode :=
  (otp_overwrite_latest_only demoDB [] "a@x.com" demoUser k7 k8 rfl
    (by decide)).2.2.1

/-- C4: a login whose email matches no user and a login whose user exists but
whose password fails `bcrypt.compare` produce the same observable response —
status 400 with the one shared message — so the two failure causes cannot be
told apart. -/
theorem login_no_enumeration (isEmail : String → Bool) (compare : String → String → Bool)
    (db db' : DB) (e p e' p' : String)
    (he : isEmail (jsTrim e) = true) (hp : 5 ≤ (jsTrim p).length)
    (he' : isEmail (jsTrim e') = true) (hp' : 5 ≤ (jsTrim p').length)
    (h1 : findUserByEmail db (jsTrim e) = none)
    (h2 : (findUserByEmail db' (jsTrim e')).isSome = true)
    (h3 : ∀ u, findUserByEmail db' (jsTrim e') = some u →
      compare (jsTrim p') u.password = false) :
    login isEmail compare db e p = login isEmail compare db' e' p' ∧
    login isEmail compare db e p = LoginRes.badRequest "Email or password is incorrect!" := by
  have hnp : ¬((jsTrim p).length < 5) := by omega
  have hnp' : ¬((jsTrim p').length < 5) := by omega
  have hL : login isEmail compare db e p =
      LoginRes.badRequest "Email or password is incorrect!" := by
    simp [login, he, hnp, h1]
  obtain ⟨u, hu⟩ := Option.isSome_iff_exists.mp h2
  have hR : login isEmail compare db' e' p' =
      LoginRes.badRequest "Email or password is incorrect!" := by
    simp [login, he', hnp', hu, h3 u hu]
  exact ⟨hL.trans hR.symm, hL⟩

/-- C4 witness: an unknown email and a known email with a failing password
comparison give identical responses. -/
theorem login_no_enumeration_witness :
    login (fun _ => true) (fun _ _ => false) [] "x@y.com" "12345" =
      login (fun _ => true) (fun _ _ => false) demoDB "a@x.com" "12345" ∧
    login (fun _ => true) (fun _ _ => false) [] "x@y.com" "12345" =
      LoginRes.badRequest "Email or password is incorrect!" :=
  login_no_enumeration (fun _ => true) (fun _ _ => false) [] demoDB
    "x@y.com" "12345" "a@x.com" "12345" rfl (by decide) rfl (by decide)
    rfl (by decide) (fun _ _ => rfl)

/-- C5 counterexample: the schema has unique indexes on `username` and `email`
only, so `User.create` succeeds for a second user with an already-stored phone
— it does not fail with `DuplicateKey` as the claim states. -/
theorem userCreate_duplicate_phone_cex :
    demoUser.phone = "1234567890" ∧
    userCreate [demoUser] 2 "bobby" "b@y.com" "secret" "1234567890" "dev" =
      CreateRes.ok [demoUser, ⟨2, "bobby", "b@y.com", "secret", "1234567890", "dev"⟩] := by
  decide

/-- C5 (amended): at the store boundary, a validating `User.create` fails with
`DuplicateKey` exactly when a stored record already has the same (normalized)
username or email; phone duplicates are not rejected by the store. -/
theorem userCreate_duplicate_key_iff (db : DB) (nextId : Nat) (un em pw ph pf : String)
    (hv : ¬((jsToLower (jsTrim un)).length < 3 ∨ (jsToLower (jsTrim em)).length < 5 ∨
      (jsTrim pw).length < 5 ∨ (jsTrim ph).length = 0 ∨ (jsTrim pf).length = 0)) :
    userCreate db nextId un em pw ph pf = CreateRes.error CreateErr.duplicateKey ↔
      ∃ u ∈ db, u.username = jsToLower (jsTrim un) ∨ u.email = jsToLower (jsTrim em) := by
  by_cases hd : db.any (fun u => u.username == jsToLower (jsTrim un) ||
      u.email == jsToLower (jsTrim em)) = true
  · rw [List.any_eq_true] at hd
    simp only [userCreate, if_neg hv]
    rw [if_pos]
    · simpa using hd
    · rw [List.any_eq_true]
      exact hd
  · simp only [userCreate, if_neg hv]
    rw [if_neg hd]
    constructor
    · intro h
      cases h
    · intro hex
      exfalso
      apply hd
      rw [List.any_eq_true]
      obtain ⟨u, hu, hor⟩ := hex
      exact ⟨u, hu, by simpa using hor⟩

/-- C5 witness: creating a user whose username collides with a stored one
fails with `DuplicateKey`. -/
theorem userCreate_duplicate_key_iff_witness :
    userCreate demoDB 2 "Alice" "c@z.com" "secret" "5556667777" "qa" =
        CreateRes.error CreateErr.duplicateKey ↔
      ∃ u ∈ demoDB, u.username = jsToLower (jsTrim "Alice") ∨
        u.email = jsToLower (jsTrim "c@z.com") :=
  userCreate_duplicate_key_iff demoDB 2 "Alice" "c@z.com" "secret" "5556667777" "qa"
    (by decide)

/-- C8: `GET /` returns one document per stored user, and no returned document
carries a `password` (or `passwordHash`) field. -/
theorem listUsers_excludes_password (db : DB) :
    (listUsers db).length = db.length ∧
    (∀ u ∈ db, selectMinusPassword (userDoc u) ∈ listUsers db) ∧
    (∀ doc ∈ listUsers db, ∀ kv ∈ doc, kv.1 ≠ "password" ∧ kv.1 ≠ "passwordHash") := by
  refine ⟨by simp [listUsers], fun u hu => List.mem_map_of_mem _ hu, ?_⟩
  intro doc hdoc kv hkv
  rw [listUsers, List.mem_map] at hdoc
  obtain ⟨u, hu, rfl⟩ := hdoc
  have hmem := List.mem_of_mem_filter hkv
  have hpred := List.of_mem_filter hkv
  constructor
  · intro h
    rw [h] at hpred
    simp at hpred
  · simp only [userDoc, List.mem_cons, List.not_mem_nil, or_false] at hmem
    rcases hmem with h | h | h | h | h | h <;> (rw [h]; simp)

/-- C8 witness: the listing of the sample store. -/
theorem listUsers_excludes_password_witness :
    (listUsers demoDB2).length = demoDB2.length ∧
    (∀ u ∈ demoDB2, selectMinusPassword (userDoc u) ∈ listUsers demoDB2) ∧
    (∀ doc ∈ listUsers demoDB2, ∀ kv ∈ doc,
      kv.1 ≠ "password" ∧ kv.1 ≠ "passwordHash") :=
  listUsers_excludes_password demoDB2

/-- C9: for an existing id (and a fresh username, so the unique index does not
abort the update), `PUT /:id` rewrites only username, phone and profession of
that record — its id, email and stored password hash survive — and leaves all
other records untouched. -/
theorem updateUser_frame (db : DB) (id : Nat) (un ph pf : String) (u : User)
    (hfind : db.find? (fun v => v.id == id) = some u)
    (hnodup : ∀ v ∈ db, v.id ≠ id → v.username ≠ jsToLower (jsTrim un)) :
    (updateUser db id un ph pf).2 =
      UpdateRes.updated (selectMinusPassword (userDoc (applyProfileUpdate u un ph pf))) ∧
    List.Forall₂ (fun v v' : User =>
      (v.id ≠ id → v' = v) ∧
      (v.id = id → v'.id = v.id ∧ v'.email = v.email ∧ v'.password = v.password ∧
        v'.username = jsToLower (jsTrim un) ∧ v'.phone = jsTrim ph ∧
        v'.profession = jsTrim pf)) db (updateUser db id un ph pf).1 := by
  have hany : db.any (fun v => v.id != id && v.username == jsToLower (jsTrim un)) = false := by
    rw [List.any_eq_false]
    intro v hv
    simp only [Bool.and_eq_true, bne_iff_ne, beq_iff_eq, not_and]
    exact fun hne => hnodup v hv hne
  have hred : updateUser db id un ph pf =
      (db.map (fun v => if v.id == id then applyProfileUpdate v un ph pf else v),
       UpdateRes.updated (selectMinusPassword (userDoc (applyProfileUpdate u un ph pf)))) := by
    simp [updateUser, hfind, hany]
  rw [hred]
  refine ⟨rfl, ?_⟩
  rw [List.forall₂_map_right_iff, List.forall₂_same]
  intro v hv
  constructor
  · intro hne
    simp [(by simpa using hne : (v.id == id) = false)]
  · intro heq
    simp [heq, applyProfileUpdate]

/-- C9 witness: updating user 1 in the two-user store. -/
theorem updateUser_frame_witness :
    (updateUser demoDB2 1 "carol" "9998887777" "ops").2 =
      UpdateRes.updated (selectMinusPassword
        (userDoc (applyProfileUpdate demoUser "carol" "9998887777" "ops"))) ∧
    List.Forall₂ (fun v v' : User =>
      (v.id ≠ 1 → v' = v) ∧
      (v.id = 1 → v'.id = v.id ∧ v'.email = v.email ∧ v'.password = v.password ∧
        v'.username = jsToLower (jsTrim "carol") ∧ v'.phone = jsTrim "9998887777" ∧
        v'.profession = jsTrim "ops")) demoDB2 (updateUser demoDB2 1 "carol" "9998887777" "ops").1 :=
  updateUser_frame demoDB2 1 "carol" "9998887777" "ops" demoUser rfl (by decide)

/-- C10: the reset step never checks that a verify succeeded (or happened at
all): verify calls do not change the registry, and any pending entry alone
makes `resetPassword` succeed. -/
theorem reset_without_verify (hash : String → String) (db : DB) (s : OtpStore)
    (email pw c : String) (hreach : ReachableOtp s) (hc : otpGet s email = some c) :
    (∀ calls : List (String × String), foldVerify s calls = s) ∧
    (∀ calls : List (String × String),
      (resetPassword hash db (foldVerify s calls) email pw).2.2 = ResetRes.ok) := by
  have hfold : ∀ (calls : List (String × String)) (t : OtpStore), foldVerify t calls = t := by
    intro calls
    induction calls with
    | nil => intro t; rfl
    | cons a l ih =>
      intro t
      rw [foldVerify, List.foldl_cons, verifyOtp_fst]
      exact ih t
  obtain ⟨k, hk⟩ := reachable_codes s hreach email c hc
  have hcne : (c == "") = false := by
    subst hk
    simpa using genOtp_ne_empty k
  refine ⟨fun calls => hfold calls s, fun calls => ?_⟩
  rw [hfold calls s]
  simp [resetPassword, otpRead_some s email c hc, jsFalsy, hcne]

/-- C10 witness: a failed verify attempt does not block the reset. -/
theorem reset_without_verify_witness :
    (resetPassword demoHash demoDB
      (foldVerify (otpSet [] "a@x.com" (genOtp k7)) [("a@x.com", "000000")])
      "a@x.com" "newpass1").2.2 = ResetRes.ok :=
  (reset_without_verify demoHash demoDB (otpSet [] "a@x.com" (genOtp k7))
    "a@x.com" "newpass1" (genOtp k7)
    (ReachableOtp.issue [] "a@x.com" k7 ReachableOtp.empty)
    (otpGet_otpSet_self [] "a@x.com" (genOtp k7))).2 [("a@x.com", "000000")]

end GeeksApp
